import Mathlib

/-!
Verification of the OAuth2 login/caching flow of the gemini-cli code-assist
module (packages/core/src/code_assist/oauth2.ts).

The embedding models:
- the credential store (cacheCredentials / loadCachedCredentials /
  getCachedCredentialPath) over an explicit file-system map;
- the callback receiver: the HTTP request handler installed by authWithWeb
  in interactive mode, over the raw request url string;
- the headless code channel (exchangeCodeFunction) over an explicit
  one-shot promise state;
- the authorization-URL construction performed by authWithWeb.

External collaborators (the google-auth-library token operations, the
filesystem, JSON parsing outcomes) are passed in as explicit oracles, and
every effect the source performs (token-endpoint calls, cache writes,
promise settlement, HTTP redirect responses) is recorded in the result so
that theorems can speak about it.
-/

namespace GeminiOauth2

/-! ### JSON values

File contents are modelled at the level of the JSON value produced by
JSON.stringify and recovered by JSON.parse: the credential store writes
the serialized credential object verbatim and reads it back verbatim
(oauth2.ts lines 562-568 and 539-560). -/

/-- A JSON value, as produced by JSON.stringify / consumed by JSON.parse. -/
inductive Json where
  | null : Json
  | str (s : String) : Json
  | num (n : Int) : Json
  | bool (b : Bool) : Json
  | obj (fields : List (String × Json)) : Json
  | arr (elems : List Json) : Json

/-- The Credentials record of google-auth-library, with the provider-defined
field names; each field is optional (absent fields are omitted by
JSON.stringify and read back as undefined). -/
structure Credentials where
  refresh_token : Option String := none
  expiry_date : Option Int := none
  access_token : Option String := none
  token_type : Option String := none
  id_token : Option String := none
  scope : Option String := none
deriving DecidableEq, Repr

/-- Emit an optional string field: JSON.stringify omits undefined fields. -/
def optStrField (k : String) : Option String → List (String × Json)
  | none => []
  | some s => [(k, Json.str s)]

/-- Emit an optional numeric field: JSON.stringify omits undefined fields. -/
def optNumField (k : String) : Option Int → List (String × Json)
  | none => []
  | some n => [(k, Json.num n)]

/-- JSON.stringify(credentials): the object with exactly the defined fields. -/
def Credentials.toJson (c : Credentials) : Json :=
  Json.obj
    (optStrField "refresh_token" c.refresh_token ++
     optNumField "expiry_date" c.expiry_date ++
     optStrField "access_token" c.access_token ++
     optStrField "token_type" c.token_type ++
     optStrField "id_token" c.id_token ++
     optStrField "scope" c.scope)

/-- Field lookup on a parsed JSON value (property access on the object
JSON.parse returned); non-objects have no fields. -/
def Json.getField : Json → String → Option Json
  | Json.obj fs, k => (fs.find? (fun p => p.1 == k)).map (fun p => p.2)
  | _, _ => none

/-- Read a string-valued field; anything else reads as undefined. -/
def Json.getStr (j : Json) (k : String) : Option String :=
  match j.getField k with
  | some (Json.str s) => some s
  | _ => none

/-- Read a number-valued field; anything else reads as undefined. -/
def Json.getNum (j : Json) (k : String) : Option Int :=
  match j.getField k with
  | some (Json.num n) => some n
  | _ => none

/-- The credentials view of a parsed JSON value: what
client.setCredentials(JSON.parse(creds)) makes the client hold, field by
field. -/
def Json.asCredentials (j : Json) : Credentials :=
  { refresh_token := j.getStr "refresh_token"
    expiry_date := j.getNum "expiry_date"
    access_token := j.getStr "access_token"
    token_type := j.getStr "token_type"
    id_token := j.getStr "id_token"
    scope := j.getStr "scope" }

/-- Serializing a credential object and reading it back field by field is
the identity: the JSON round-trip is lossless. -/
theorem credentials_json_roundtrip (c : Credentials) :
    (Credentials.toJson c).asCredentials = c := by
  obtain ⟨r, e, a, t, i, s⟩ := c
  cases r <;> cases e <;> cases a <;> cases t <;> cases i <;> cases s <;> rfl

/-! ### URL and query-string handling

The interactive request handler works on the raw request url string
(req.url) and on the query parameters extracted with
new url.URL(req.url, base).searchParams.  The WHATWG query split is
modelled at the character level: the query is everything after the first
question mark, segments are separated by ampersands, and each segment is
split at its first equals sign (percent-decoding is not needed by any
input considered here). -/

/-- Whether pat occurs as a prefix of s (character lists). -/
def listPref : List Char → List Char → Bool
  | [], _ => true
  | _ :: _, [] => false
  | a :: as, b :: bs => a == b && listPref as bs

/-- Whether pat occurs as a contiguous substring of s (character lists);
this is what String.prototype.indexOf(pat) being different from -1 tests. -/
def listSub (pat : List Char) : List Char → Bool
  | [] => listPref pat []
  | b :: bs => listPref pat (b :: bs) || listSub pat bs

/-- JS s.indexOf(pat) !== -1, i.e. pat occurs somewhere inside s. -/
def strHasSub (s pat : String) : Bool :=
  listSub pat.toList s.toList

/-- Split a character list at the first occurrence of c: the part before,
and (when c occurs) the part after it. -/
def breakAtChar (c : Char) : List Char → List Char × Option (List Char)
  | [] => ([], none)
  | x :: xs =>
    if x == c then ([], some xs)
    else
      let r := breakAtChar c xs
      (x :: r.1, r.2)

/-- Split a character list on every occurrence of c. -/
def splitOnChar (c : Char) : List Char → List (List Char)
  | [] => [[]]
  | x :: xs =>
    match splitOnChar c xs with
    | [] => [[]]
    | y :: ys => if x == c then [] :: y :: ys else (x :: y) :: ys

/-- The path part of a request url: everything before the first question
mark. -/
def pathOf (u : String) : String :=
  String.mk (breakAtChar '?' u.toList).1

/-- The query part of a request url: everything after the first question
mark (empty when there is none). -/
def queryOf (u : String) : String :=
  String.mk ((breakAtChar '?' u.toList).2.getD [])

/-- One query segment as a key/value pair, split at the first equals sign;
a segment without an equals sign has the empty value. -/
def splitPairAtEq (seg : List Char) : String × String :=
  let r := breakAtChar '=' seg
  (String.mk r.1, String.mk (r.2.getD []))

/-- The key/value pairs of a query string, in order; empty segments are
skipped as URLSearchParams does. -/
def parseQuery (q : String) : List (String × String) :=
  ((splitOnChar '&' q.toList).filter (fun seg => !seg.isEmpty)).map splitPairAtEq

/-- searchParams.get(k): the value of the first pair with key k, or null
(none) when the key is absent. -/
def getParam (ps : List (String × String)) (k : String) : Option String :=
  (ps.find? (fun p => p.1 == k)).map (fun p => p.2)

/-- JS truthiness of a string-or-null query value: null and the empty
string are falsy. -/
def truthy : Option String → Bool
  | none => false
  | some s => !(s == "")

/-- The query parameters the handler extracts from a request url. -/
def callbackParams (u : String) : List (String × String) :=
  parseQuery (queryOf u)

/-! ### Constants from oauth2.ts -/

/-- OAuth scopes for Cloud Code authorization (OAUTH_SCOPE). -/
def OAUTH_SCOPE : List String :=
  ["https://www.googleapis.com/auth/cloud-platform",
   "https://www.googleapis.com/auth/userinfo.email",
   "https://www.googleapis.com/auth/userinfo.profile"]

/-- Redirect target on success (SIGN_IN_SUCCESS_URL). -/
def SIGN_IN_SUCCESS_URL : String :=
  "https://developers.google.com/gemini-code-assist/auth_success_gemini"

/-- Redirect target on failure (SIGN_IN_FAILURE_URL). -/
def SIGN_IN_FAILURE_URL : String :=
  "https://developers.google.com/gemini-code-assist/auth_failure_gemini"

/-- Directory under the home directory holding the credential cache
(GEMINI_DIR). -/
def GEMINI_DIR : String := ".gemini"

/-- Credential cache file name (CREDENTIAL_FILENAME). -/
def CREDENTIAL_FILENAME : String := "oauth_creds.json"

/-! ### The callback receiver

authWithWeb (interactive branch) installs a request handler on the local
HTTP server.  The handler is modelled as a pure function of the state
nonce, a token-exchange oracle (client.getToken, which either yields the
token set or throws with a message), and the inbound request url
(req.url, optional since node types it as possibly undefined).  The
result records which branch ran, the settlement of the login promise,
the Location header of the 301 response, the codes sent to the token
endpoint, and the credentials handed to cacheCredentials. -/

/-- Settlement performed by one handler run on the login promise. -/
inductive HandlerOutcome where
  | resolved : HandlerOutcome
  | rejected (msg : String) : HandlerOutcome
deriving DecidableEq, Repr

/-- Which branch of the handler ran. -/
inductive HandlerBranch where
  | unexpected : HandlerBranch
  | providerError : HandlerBranch
  | stateMismatch : HandlerBranch
  | exchangeOk : HandlerBranch
  | exchangeErr : HandlerBranch
  | noCode : HandlerBranch
  | serverError : HandlerBranch
deriving DecidableEq, Repr

/-- Everything one handler run does. -/
structure HandlerResult where
  branch : HandlerBranch
  outcome : HandlerOutcome
  location : Option String
  getTokenCalls : List String
  cacheWritten : Option Credentials
deriving DecidableEq, Repr

/-- JS falsiness of req.url: undefined or the empty string. -/
def urlFalsy : Option String → Bool
  | none => true
  | some s => s == ""

/-- The string req.url contributes to message concatenation (undefined
prints as the word undefined in JS string concatenation). -/
def urlStr : Option String → String
  | none => "undefined"
  | some s => s

/-- The guard that rejects a request as unexpected:
req.url is falsy or req.url.indexOf(the callback path) === -1. -/
def badUrl (u : Option String) : Bool :=
  urlFalsy u || !strHasSub (urlStr u) "/oauth2callback"

/-- The request handler of the interactive flow (oauth2.ts lines 453-500),
for one inbound request. -/
def handleCallback (state : String)
    (getToken : String → Except String Credentials)
    (u : Option String) : HandlerResult :=
  if badUrl u then
    { branch := HandlerBranch.unexpected
      outcome := HandlerOutcome.rejected ("Unexpected request: " ++ urlStr u)
      location := some SIGN_IN_FAILURE_URL
      getTokenCalls := []
      cacheWritten := none }
  else
    if truthy (getParam (callbackParams (urlStr u)) "error") then
      { branch := HandlerBranch.providerError
        outcome := HandlerOutcome.rejected
          ("Error during authentication: " ++
            (getParam (callbackParams (urlStr u)) "error").getD "")
        location := some SIGN_IN_FAILURE_URL
        getTokenCalls := []
        cacheWritten := none }
    else if getParam (callbackParams (urlStr u)) "state" ≠ some state then
      { branch := HandlerBranch.stateMismatch
        outcome := HandlerOutcome.rejected "State mismatch. Possible CSRF attack."
        location := some SIGN_IN_FAILURE_URL
        getTokenCalls := []
        cacheWritten := none }
    else if truthy (getParam (callbackParams (urlStr u)) "code") then
      match getToken ((getParam (callbackParams (urlStr u)) "code").getD "") with
      | Except.ok tokens =>
        { branch := HandlerBranch.exchangeOk
          outcome := HandlerOutcome.resolved
          location := some SIGN_IN_SUCCESS_URL
          getTokenCalls := [(getParam (callbackParams (urlStr u)) "code").getD ""]
          cacheWritten := some tokens }
      | Except.error e =>
        { branch := HandlerBranch.exchangeErr
          outcome := HandlerOutcome.rejected e
          location := some SIGN_IN_FAILURE_URL
          getTokenCalls := [(getParam (callbackParams (urlStr u)) "code").getD ""]
          cacheWritten := none }
    else
      { branch := HandlerBranch.noCode
        outcome := HandlerOutcome.rejected "No code found in request"
        location := some SIGN_IN_FAILURE_URL
        getTokenCalls := []
        cacheWritten := none }

/-- An event terminating one interactive attempt: either the server error
handler fires (for example the fixed port is already bound), or one
request reaches the request handler. -/
inductive ServerEvent where
  | bindError (msg : String) : ServerEvent
  | request (u : Option String) : ServerEvent

/-- One interactive attempt: a bind error rejects with the server-error
message without running the handler (oauth2.ts lines 501-505); otherwise
the request handler runs. -/
def interactiveAttempt (state : String)
    (getToken : String → Except String Credentials)
    (ev : ServerEvent) : HandlerResult :=
  match ev with
  | ServerEvent.bindError m =>
    { branch := HandlerBranch.serverError
      outcome := HandlerOutcome.rejected ("HTTP server error: " ++ m)
      location := none
      getTokenCalls := []
      cacheWritten := none }
  | ServerEvent.request u => handleCallback state getToken u

/-! ### The headless code channel

authWithWeb (headless branch) creates a single login promise and exposes
exchangeCodeFunction, which settles it.  The promise is one-shot:
resolving or rejecting an already settled promise is a no-op.  The
function itself also throws (returns a rejected result to its direct
caller) on failure. -/

/-- The state of the single-shot login promise. -/
inductive PromiseState where
  | pending : PromiseState
  | resolved : PromiseState
  | rejected (msg : String) : PromiseState
deriving DecidableEq, Repr

/-- resolve() on a one-shot promise: a no-op once settled. -/
def resolveP : PromiseState → PromiseState
  | PromiseState.pending => PromiseState.resolved
  | s => s

/-- reject(msg) on a one-shot promise: a no-op once settled. -/
def rejectP (msg : String) : PromiseState → PromiseState
  | PromiseState.pending => PromiseState.rejected msg
  | s => s

/-- Leading and trailing whitespace removal, as code.trim() does. -/
def jsTrim (s : String) : String :=
  String.mk
    (((s.toList.dropWhile Char.isWhitespace).reverse.dropWhile
        Char.isWhitespace).reverse)

/-- Everything one invocation of exchangeCodeFunction does. -/
structure ExchangeResult where
  promise : PromiseState
  thrown : Option String
  getTokenCalls : List String
  cacheWritten : Option Credentials
deriving DecidableEq, Repr

/-- The headless exchangeCodeFunction (oauth2.ts lines 409-430), as a
function of the token-exchange oracle, the current promise state, and
the submitted code.  thrown records the error the function itself throws
to its direct caller (none on success). -/
def exchangeCodeFunction (getToken : String → Except String Credentials)
    (p : PromiseState) (code : String) : ExchangeResult :=
  if code == "" || jsTrim code == "" then
    { promise := rejectP "No authorization code provided." p
      thrown := some "No authorization code provided."
      getTokenCalls := []
      cacheWritten := none }
  else
    match getToken (jsTrim code) with
    | Except.ok tokens =>
      { promise := resolveP p
        thrown := none
        getTokenCalls := [jsTrim code]
        cacheWritten := some tokens }
    | Except.error e =>
      { promise := rejectP ("Error exchanging authorization code: " ++ e) p
        thrown := some ("Error exchanging authorization code: " ++ e)
        getTokenCalls := [jsTrim code]
        cacheWritten := none }

/-! ### The credential store

cacheCredentials / loadCachedCredentials / getCachedCredentialPath over
an explicit file system.  A file either holds well-formed JSON text
(carried as the parsed value, since the store writes JSON.stringify
output and reads it back with JSON.parse) or text on which JSON.parse
throws; an absent or unreadable file is none. -/

/-- Content of one cache file. -/
inductive FileContent where
  | json (j : Json) : FileContent
  | malformed : FileContent

/-- The file system: paths to contents; none is absent or unreadable. -/
def FileSys : Type := String → Option FileContent

/-- path.join(os.homedir(), GEMINI_DIR, CREDENTIAL_FILENAME), with the
home directory as a parameter (getCachedCredentialPath). -/
def getCachedCredentialPath (home : String) : String :=
  home ++ "/" ++ GEMINI_DIR ++ "/" ++ CREDENTIAL_FILENAME

/-- process.env.GOOGLE_APPLICATION_CREDENTIALS || getCachedCredentialPath():
the override wins unless unset or empty (JS falsy). -/
def keyFilePath (override : Option String) (home : String) : String :=
  match override with
  | none => getCachedCredentialPath home
  | some s => if s == "" then getCachedCredentialPath home else s

/-- cacheCredentials (oauth2.ts lines 562-568): mkdir -p of the parent
(invisible in the path-to-content map) then a full-file overwrite of the
fixed per-user path with the serialized credentials.  It takes no path
override. -/
def cacheCredentials (home : String) (fs : FileSys) (creds : Credentials) :
    FileSys :=
  fun p =>
    if p = getCachedCredentialPath home then some (FileContent.json creds.toJson)
    else fs p

/-- The environment-and-oracle record loadCachedCredentials runs against:
the GOOGLE_APPLICATION_CREDENTIALS override, the local token check
(client.getAccessToken on the credentials just set, yielding the token
or throwing), and the remote introspection (client.getTokenInfo, which
throws when the token is revoked or invalid). -/
structure LoadEnv where
  override : Option String
  getAccessToken : Credentials → Except String (Option String)
  getTokenInfo : String → Except String Unit

/-- The try-block body of loadCachedCredentials (oauth2.ts lines 540-556):
the first component is the returned Bool or the thrown error, the second
the credentials held by the client afterwards (cl is what it held
before; setCredentials runs as soon as the file parses). -/
def loadBody (env : LoadEnv) (home : String) (fs : FileSys)
    (cl : Option Credentials) : Except String Bool × Option Credentials :=
  match fs (keyFilePath env.override home) with
  | none => (Except.error "read failed", cl)
  | some FileContent.malformed => (Except.error "JSON parse failed", cl)
  | some (FileContent.json j) =>
    let parsed := j.asCredentials
    match env.getAccessToken parsed with
    | Except.error e => (Except.error e, some parsed)
    | Except.ok none => (Except.ok false, some parsed)
    | Except.ok (some t) =>
      if t == "" then (Except.ok false, some parsed)
      else
        match env.getTokenInfo t with
        | Except.error e => (Except.error e, some parsed)
        | Except.ok _ => (Except.ok true, some parsed)

/-- loadCachedCredentials (oauth2.ts lines 539-560): the body wrapped in
the catch-all that turns every thrown error into the Bool false. -/
def loadCachedCredentials (env : LoadEnv) (home : String) (fs : FileSys)
    (cl : Option Credentials) : Bool × Option Credentials :=
  match loadBody env home fs cl with
  | (Except.ok b, c) => (b, c)
  | (Except.error _, c) => (false, c)

/-! ### Authorization-URL construction

authWithWeb builds the authorization URL from a fixed option set
(oauth2.ts lines 392-399 headless, 442-450 interactive); generateAuthUrl
itself belongs to google-auth-library, so the model records the options
passed to it together with the redirect URI in use and the port the
interactive listener binds. -/

/-- The options authWithWeb passes to client.generateAuthUrl. -/
structure AuthUrlOpts where
  redirect_uri : String
  access_type : String
  scope : List String
  state : String
deriving DecidableEq, Repr

/-- The flow configuration one authWithWeb call commits to. -/
structure FlowInit where
  authUrlOpts : AuthUrlOpts
  redirectUri : String
  listenerPort : Option Nat
deriving DecidableEq, Repr

/-- Flow selection and URL construction in authWithWeb, as a function of
the HEADLESS_LOGIN environment signal and the fresh state nonce. -/
def authWithWeb (headlessLogin : Bool) (state : String) : FlowInit :=
  if headlessLogin then
    let redirectUri := "urn:ietf:wg:oauth:2.0:oob"
    { authUrlOpts :=
        { redirect_uri := redirectUri
          access_type := "offline"
          scope := OAUTH_SCOPE
          state := state }
      redirectUri := redirectUri
      listenerPort := none }
  else
    let port : Nat := 8081
    let redirectUri := "http://localhost:" ++ toString port ++ "/oauth2callback"
    { authUrlOpts :=
        { redirect_uri := redirectUri
          access_type := "offline"
          scope := OAUTH_SCOPE
          state := state }
      redirectUri := redirectUri
      listenerPort := some port }

/-! ### Claim theorems -/

/-- A concrete credential object used in witnesses and counterexamples. -/
def sampleCreds : Credentials :=
  { refresh_token := some "refresh"
    expiry_date := some 1700000000000
    access_token := some "access"
    token_type := some "Bearer"
    id_token := none
    scope := some "scope" }

/-- C2: loadCachedCredentials reports a cache miss (false) exactly when its
try-body did not come back with true — every thrown error (absent or
unreadable file, malformed JSON, a throwing local token check or remote
introspection) and every internal false (missing or empty access token)
is absorbed into the Bool false, and no exception reaches the caller. -/
theorem c2_load_absorbs_failures (env : LoadEnv) (home : String) (fs : FileSys)
    (cl : Option Credentials) :
    (loadCachedCredentials env home fs cl).1 = false ↔
      (loadBody env home fs cl).1 ≠ Except.ok true := by
  unfold loadCachedCredentials
  rcases h : loadBody env home fs cl with ⟨e | b, c⟩
  · simp [h]
  · cases b <;> simp [h]

/-- C4: a headless code submission that is empty or whitespace-only rejects
the pending login promise with the no-authorization-code error, throws that
same error to its caller, performs no token-endpoint call, and writes no
cache. -/
theorem c4_empty_code_rejected
    (getToken : String → Except String Credentials) (code : String)
    (h : jsTrim code = "") :
    exchangeCodeFunction getToken PromiseState.pending code =
      { promise := PromiseState.rejected "No authorization code provided."
        thrown := some "No authorization code provided."
        getTokenCalls := []
        cacheWritten := none } := by
  unfold exchangeCodeFunction
  have hc : (code == "" || jsTrim code == "") = true := by
    simp [h]
  rw [hc]
  rfl

/-- Witness for C4 at the whitespace-only code of the spec scenario. -/
theorem c4_empty_code_rejected_witness :
    exchangeCodeFunction (fun _ => Except.error "unused") PromiseState.pending
        "   " =
      { promise := PromiseState.rejected "No authorization code provided."
        thrown := some "No authorization code provided."
        getTokenCalls := []
        cacheWritten := none } :=
  c4_empty_code_rejected (fun _ => Except.error "unused") "   " (by rfl)

/-- C10: on any request that passes the url guard and carries a non-empty
error query parameter, the handler rejects with the provider error message
without consulting the state parameter, calling the token endpoint, or
writing the cache — even when the state parameter mismatches the nonce. -/
theorem c10_error_checked_before_state (state : String)
    (getToken : String → Except String Credentials) (u : Option String)
    (e : String)
    (hu : badUrl u = false)
    (he : getParam (callbackParams (urlStr u)) "error" = some e)
    (hne : e ≠ "") :
    handleCallback state getToken u =
      { branch := HandlerBranch.providerError
        outcome := HandlerOutcome.rejected ("Error during authentication: " ++ e)
        location := some SIGN_IN_FAILURE_URL
        getTokenCalls := []
        cacheWritten := none } := by
  unfold handleCallback
  rw [hu]
  simp [he, truthy, hne]

/-- Witness for C10: a callback-path request whose state (bad) differs from
the nonce (n) but which carries error=denied still fails with the provider
error message, not the state mismatch. -/
theorem c10_error_checked_before_state_witness :
    handleCallback "n" (fun _ => Except.error "unused")
        (some "/oauth2callback?error=denied&state=bad") =
      { branch := HandlerBranch.providerError
        outcome := HandlerOutcome.rejected "Error during authentication: denied"
        location := some SIGN_IN_FAILURE_URL
        getTokenCalls := []
        cacheWritten := none } :=
  c10_error_checked_before_state "n" (fun _ => Except.error "unused")
    (some "/oauth2callback?error=denied&state=bad") "denied"
    (by decide) (by decide) (by decide)

/-- C1 counterexample: a callback-path request whose state (bad) differs
from the nonce (n) but which also carries error=x does NOT fail with the
state-mismatch error — the provider error parameter is reported instead —
refuting the claim that every mismatched-state request fails with a
state-mismatch error. -/
theorem c1_counterexample :
    getParam (callbackParams "/oauth2callback?error=x&state=bad&code=c")
        "state" ≠ some "n" ∧
    (handleCallback "n" (fun _ => Except.error "unused")
        (some "/oauth2callback?error=x&state=bad&code=c")).outcome =
      HandlerOutcome.rejected "Error during authentication: x" ∧
    (handleCallback "n" (fun _ => Except.error "unused")
        (some "/oauth2callback?error=x&state=bad&code=c")).outcome ≠
      HandlerOutcome.rejected "State mismatch. Possible CSRF attack." := by
  refine ⟨by decide, rfl, by decide⟩

/-- C1 amended: a request whose state parameter differs from the nonce
never triggers a token-endpoint call and never writes the cache; and
whenever it carries no non-empty error parameter (the case the provider
error branch does not pre-empt), it fails with the state-mismatch error
and the failure redirect. -/
theorem c1_state_mismatch_amended (state : String)
    (getToken : String → Except String Credentials) (u : Option String)
    (hu : badUrl u = false)
    (hs : getParam (callbackParams (urlStr u)) "state" ≠ some state) :
    (handleCallback state getToken u).getTokenCalls = [] ∧
    (handleCallback state getToken u).cacheWritten = none ∧
    (truthy (getParam (callbackParams (urlStr u)) "error") = false →
      handleCallback state getToken u =
        { branch := HandlerBranch.stateMismatch
          outcome :=
            HandlerOutcome.rejected "State mismatch. Possible CSRF attack."
          location := some SIGN_IN_FAILURE_URL
          getTokenCalls := []
          cacheWritten := none }) := by
  unfold handleCallback
  rw [hu]
  cases herr : truthy (getParam (callbackParams (urlStr u)) "error") with
  | true => simp [herr]
  | false => simp [herr, hs]

/-- Witness for C1 amended at a concrete mismatched-state request. -/
theorem c1_state_mismatch_amended_witness :
    (handleCallback "n" (fun _ => Except.ok sampleCreds)
        (some "/oauth2callback?state=bad&code=c")).getTokenCalls = [] ∧
    (handleCallback "n" (fun _ => Except.ok sampleCreds)
        (some "/oauth2callback?state=bad&code=c")).cacheWritten = none ∧
    handleCallback "n" (fun _ => Except.ok sampleCreds)
        (some "/oauth2callback?state=bad&code=c") =
      { branch := HandlerBranch.stateMismatch
        outcome := HandlerOutcome.rejected "State mismatch. Possible CSRF attack."
        location := some SIGN_IN_FAILURE_URL
        getTokenCalls := []
        cacheWritten := none } := by
  have h := c1_state_mismatch_amended "n" (fun _ => Except.ok sampleCreds)
    (some "/oauth2callback?state=bad&code=c") (by decide) (by decide)
  exact ⟨h.1, h.2.1, h.2.2 (by decide)⟩

/-- C5 counterexample: a request whose path is /x/oauth2callback — not the
expected callback path — is not rejected as unexpected; with matching
state and a code it is accepted and even completes the exchange, because
the guard only tests substring containment of /oauth2callback in the url. -/
theorem c5_counterexample :
    pathOf "/x/oauth2callback?code=c&state=n" ≠ "/oauth2callback" ∧
    (handleCallback "n" (fun _ => Except.ok sampleCreds)
        (some "/x/oauth2callback?code=c&state=n")).branch ≠
      HandlerBranch.unexpected ∧
    (handleCallback "n" (fun _ => Except.ok sampleCreds)
        (some "/x/oauth2callback?code=c&state=n")).outcome =
      HandlerOutcome.resolved := by
  refine ⟨by decide, by decide, rfl⟩

/-- C5 amended: the handler rejects a request as unexpected (with the
failure redirect and the Unexpected request error) exactly when the
request url is missing, empty, or does not contain the substring
/oauth2callback; any url containing that substring anywhere — in its path
or query — is accepted for further processing. -/
theorem c5_unexpected_guard_amended (state : String)
    (getToken : String → Except String Credentials) (u : Option String) :
    ((handleCallback state getToken u).branch = HandlerBranch.unexpected ↔
      badUrl u = true) ∧
    (badUrl u = true →
      handleCallback state getToken u =
        { branch := HandlerBranch.unexpected
          outcome := HandlerOutcome.rejected ("Unexpected request: " ++ urlStr u)
          location := some SIGN_IN_FAILURE_URL
          getTokenCalls := []
          cacheWritten := none }) := by
  unfold handleCallback
  cases hb : badUrl u with
  | true => simp [hb]
  | false =>
    simp only [hb, Bool.false_eq_true, if_false, false_implies, and_true]
    split
    · simp
    · split
      · simp
      · split
        · split <;> simp
        · simp

/-- Witness for C5 amended at an absent-path request and at a present one. -/
theorem c5_unexpected_guard_amended_witness :
    handleCallback "n" (fun _ => Except.ok sampleCreds) (some "/favicon.ico") =
      { branch := HandlerBranch.unexpected
        outcome := HandlerOutcome.rejected "Unexpected request: /favicon.ico"
        location := some SIGN_IN_FAILURE_URL
        getTokenCalls := []
        cacheWritten := none } :=
  (c5_unexpected_guard_amended "n" (fun _ => Except.ok sampleCreds)
      (some "/favicon.ico")).2 (by decide)

/-- C3: no failing outcome writes the credential cache.  On the interactive
side — bind error, unexpected request, provider error, state mismatch,
missing code, or a rejected token exchange — any attempt that does not
resolve hands nothing to cacheCredentials; likewise on the headless side,
any exchangeCodeFunction run that throws writes no cache. -/
theorem c3_no_cache_on_failure :
    (∀ (state : String) (getToken : String → Except String Credentials)
        (ev : ServerEvent),
      (interactiveAttempt state getToken ev).outcome ≠ HandlerOutcome.resolved →
      (interactiveAttempt state getToken ev).cacheWritten = none) ∧
    (∀ (getToken : String → Except String Credentials) (p : PromiseState)
        (code : String),
      (exchangeCodeFunction getToken p code).thrown ≠ none →
      (exchangeCodeFunction getToken p code).cacheWritten = none) := by
  constructor
  · intro state getToken ev h
    cases ev with
    | bindError m => rfl
    | request u =>
      revert h
      show (handleCallback state getToken u).outcome ≠ _ →
        (handleCallback state getToken u).cacheWritten = none
      unfold handleCallback
      split
      · exact fun _ => rfl
      · split
        · exact fun _ => rfl
        · split
          · exact fun _ => rfl
          · split
            · split
              · intro h; exact absurd rfl h
              · exact fun _ => rfl
            · exact fun _ => rfl
  · intro getToken p code h
    revert h
    unfold exchangeCodeFunction
    split
    · exact fun _ => rfl
    · split
      · intro h; exact absurd rfl h
      · exact fun _ => rfl

/-- Witness for C3: a rejected token exchange on the interactive side and a
rejected exchange on the headless side both leave the cache untouched. -/
theorem c3_no_cache_on_failure_witness :
    (interactiveAttempt "n" (fun _ => Except.error "invalid_grant")
        (ServerEvent.request (some "/oauth2callback?state=n&code=c"))).cacheWritten =
      none ∧
    (exchangeCodeFunction (fun _ => Except.error "invalid_grant")
        PromiseState.pending "c").cacheWritten = none :=
  ⟨c3_no_cache_on_failure.1 "n" (fun _ => Except.error "invalid_grant")
      (ServerEvent.request (some "/oauth2callback?state=n&code=c")) (by decide),
   c3_no_cache_on_failure.2 (fun _ => Except.error "invalid_grant")
      PromiseState.pending "c" (by decide)⟩

/-- C6 counterexample: invoking exchangeCodeFunction again after the login
promise has already resolved is not a no-op — with a non-empty code it
performs another token-endpoint call and writes the credential cache
again, refuting the claim that post-success invocations perform no further
exchange and no cache write. -/
theorem c6_counterexample :
    (exchangeCodeFunction (fun _ => Except.ok sampleCreds)
        PromiseState.resolved "second-code").getTokenCalls ≠ [] ∧
    (exchangeCodeFunction (fun _ => Except.ok sampleCreds)
        PromiseState.resolved "second-code").cacheWritten = some sampleCreds := by
  refine ⟨by decide, rfl⟩

/-- C6 amended: once the shared completion signal is resolved, no later
invocation of exchangeCodeFunction can change it (settlement is one-shot);
but the function is not otherwise guarded — a later invocation whose
non-blank code the token endpoint accepts performs the exchange again and
rewrites the credential cache. -/
theorem c6_after_success_amended
    (getToken : String → Except String Credentials) (code : String) :
    (exchangeCodeFunction getToken PromiseState.resolved code).promise =
      PromiseState.resolved ∧
    (∀ t : Credentials, jsTrim code ≠ "" →
      getToken (jsTrim code) = Except.ok t →
      (exchangeCodeFunction getToken PromiseState.resolved code).getTokenCalls =
          [jsTrim code] ∧
      (exchangeCodeFunction getToken PromiseState.resolved code).cacheWritten =
          some t) := by
  constructor
  · unfold exchangeCodeFunction
    split
    · rfl
    · split <;> rfl
  · intro t hne hok
    have hcode : code ≠ "" := by
      intro hc
      rw [hc] at hne
      exact hne rfl
    unfold exchangeCodeFunction
    have hc : (code == "" || jsTrim code == "") = false := by
      simp [hcode, hne]
    rw [hc]
    simp [hok]

/-- Witness for C6 amended: a post-success resubmission with an accepted
code leaves the signal resolved yet re-runs the exchange and the cache
write. -/
theorem c6_after_success_amended_witness :
    (exchangeCodeFunction (fun _ => Except.ok sampleCreds)
        PromiseState.resolved "code-two").promise = PromiseState.resolved ∧
    (exchangeCodeFunction (fun _ => Except.ok sampleCreds)
        PromiseState.resolved "code-two").getTokenCalls = ["code-two"] ∧
    (exchangeCodeFunction (fun _ => Except.ok sampleCreds)
        PromiseState.resolved "code-two").cacheWritten = some sampleCreds := by
  have h := c6_after_success_amended (fun _ => Except.ok sampleCreds) "code-two"
  have h2 := h.2 sampleCreds (by decide) (by rfl)
  exact ⟨h.1, h2.1, h2.2⟩

/-- C7: saving a credential object with cacheCredentials and then loading
the same (default) path back through loadCachedCredentials leaves the
client holding a field-for-field identical credentials object, whatever
the prior file contents and whatever the token checks later report — the
JSON serialization round-trips losslessly. -/
theorem c7_cache_load_roundtrip (env : LoadEnv) (home : String) (fs : FileSys)
    (creds : Credentials) (cl : Option Credentials)
    (hov : env.override = none) :
    (loadCachedCredentials env home (cacheCredentials home fs creds) cl).2 =
      some creds := by
  unfold loadCachedCredentials loadBody
  have hk : keyFilePath env.override home = getCachedCredentialPath home := by
    rw [hov]
    rfl
  have hfile : cacheCredentials home fs creds (keyFilePath env.override home) =
      some (FileContent.json creds.toJson) := by
    rw [hk]
    simp [cacheCredentials]
  rw [hfile]
  simp only [credentials_json_roundtrip]
  rcases env.getAccessToken creds with e | t
  · rfl
  · cases t with
    | none => rfl
    | some t =>
      by_cases ht : t == ""
      · simp [ht]
      · simp only [ht, Bool.false_eq_true, if_false]
        rcases env.getTokenInfo t with e | u <;> rfl

/-- Witness for C7 at concrete credentials and an initially empty store. -/
theorem c7_cache_load_roundtrip_witness :
    (loadCachedCredentials
        { override := none
          getAccessToken := fun _ => Except.ok (some "access")
          getTokenInfo := fun _ => Except.ok () }
        "/home/user" (cacheCredentials "/home/user" (fun _ => none) sampleCreds)
        none).2 = some sampleCreds :=
  c7_cache_load_roundtrip
    { override := none
      getAccessToken := fun _ => Except.ok (some "access")
      getTokenInfo := fun _ => Except.ok () }
    "/home/user" (fun _ => none) sampleCreds none rfl

/-- C8: every authWithWeb call requests offline access, the three fixed
scopes, and the fresh state nonce, with the redirect URI of the options
equal to the flow redirect URI; the interactive flow commits to the
loopback redirect on the same fixed port 8081 the listener binds, and the
headless flow uses the out-of-band redirect URI with no listener. -/
theorem c8_auth_url_params (headlessLogin : Bool) (state : String) :
    (authWithWeb headlessLogin state).authUrlOpts.access_type = "offline" ∧
    (authWithWeb headlessLogin state).authUrlOpts.scope =
      ["https://www.googleapis.com/auth/cloud-platform",
       "https://www.googleapis.com/auth/userinfo.email",
       "https://www.googleapis.com/auth/userinfo.profile"] ∧
    (authWithWeb headlessLogin state).authUrlOpts.state = state ∧
    (authWithWeb headlessLogin state).authUrlOpts.redirect_uri =
      (authWithWeb headlessLogin state).redirectUri ∧
    (headlessLogin = false →
      (authWithWeb headlessLogin state).redirectUri =
          "http://localhost:8081/oauth2callback" ∧
      (authWithWeb headlessLogin state).listenerPort = some 8081) ∧
    (headlessLogin = true →
      (authWithWeb headlessLogin state).redirectUri = "urn:ietf:wg:oauth:2.0:oob" ∧
      (authWithWeb headlessLogin state).listenerPort = none) := by
  cases headlessLogin with
  | false => exact ⟨rfl, rfl, rfl, rfl, fun _ => ⟨rfl, rfl⟩, fun h => nomatch h⟩
  | true =>
    refine ⟨rfl, rfl, rfl, rfl, ?_, fun _ => ⟨rfl, rfl⟩⟩
    intro h
    exact nomatch h

/-- Witness for C8 in both flow modes. -/
theorem c8_auth_url_params_witness :
    (authWithWeb false "nonce").redirectUri =
        "http://localhost:8081/oauth2callback" ∧
    (authWithWeb false "nonce").listenerPort = some 8081 ∧
    (authWithWeb true "nonce").redirectUri = "urn:ietf:wg:oauth:2.0:oob" ∧
    (authWithWeb true "nonce").listenerPort = none := by
  have h1 := (c8_auth_url_params false "nonce").2.2.2.2.1 rfl
  have h2 := (c8_auth_url_params true "nonce").2.2.2.2.2 rfl
  exact ⟨h1.1, h1.2, h2.1, h2.2⟩

/-- C9: cacheCredentials writes only the fixed per-user path and honors no
environment override, while loadCachedCredentials reads the override path
when GOOGLE_APPLICATION_CREDENTIALS is set and non-empty; so under an
override pointing elsewhere, a save is invisible to the next load — it
behaves exactly as if nothing had been saved. -/
theorem c9_save_ignores_override (env : LoadEnv) (home : String) (fs : FileSys)
    (creds : Credentials) (cl : Option Credentials) (p : String)
    (hov : env.override = some p) (hne : p ≠ "")
    (hfix : p ≠ getCachedCredentialPath home) :
    cacheCredentials home fs creds (getCachedCredentialPath home) =
      some (FileContent.json creds.toJson) ∧
    (∀ q, q ≠ getCachedCredentialPath home →
      cacheCredentials home fs creds q = fs q) ∧
    loadCachedCredentials env home (cacheCredentials home fs creds) cl =
      loadCachedCredentials env home fs cl := by
  have hk : keyFilePath env.override home = p := by
    simp [keyFilePath, hov, hne]
  have hcp : cacheCredentials home fs creds p = fs p := by
    simp [cacheCredentials, hfix]
  refine ⟨by simp [cacheCredentials], fun q hq => by simp [cacheCredentials, hq], ?_⟩
  unfold loadCachedCredentials loadBody
  rw [hk, hcp]

/-- Witness for C9: with the override pointing at an absent alternate file,
the load after a save misses, exactly as it would have without the save. -/
theorem c9_save_ignores_override_witness :
    cacheCredentials "/home/user" (fun _ => none) sampleCreds
        (getCachedCredentialPath "/home/user") =
      some (FileContent.json sampleCreds.toJson) ∧
    cacheCredentials "/home/user" (fun _ => none) sampleCreds "/alt/key.json" =
      (fun _ => none : FileSys) "/alt/key.json" ∧
    loadCachedCredentials
        { override := some "/alt/key.json"
          getAccessToken := fun _ => Except.ok (some "access")
          getTokenInfo := fun _ => Except.ok () }
        "/home/user" (cacheCredentials "/home/user" (fun _ => none) sampleCreds)
        none =
      loadCachedCredentials
        { override := some "/alt/key.json"
          getAccessToken := fun _ => Except.ok (some "access")
          getTokenInfo := fun _ => Except.ok () }
        "/home/user" (fun _ => none) none := by
  have h := c9_save_ignores_override
    { override := some "/alt/key.json"
      getAccessToken := fun _ => Except.ok (some "access")
      getTokenInfo := fun _ => Except.ok () }
    "/home/user" (fun _ => none) sampleCreds none "/alt/key.json"
    rfl (by decide) (by decide)
  exact ⟨h.1, h.2.1 "/alt/key.json" (by decide), h.2.2⟩

end GeminiOauth2
